import Mathlib

/-!
A verification development for navit's location fusion and extrapolation
engine (`src/navit/location.c`).

The C code is shallowly embedded: C `double` values are modelled as `ℚ`,
C `int` values as `ℤ`, and the presence bitset (`enum location_flags`,
six disjoint single-bit flags manipulated only by set/clear/test of
individual bits and whole-value copies) as a record of six `Bool`s.

Code of the repository that is not under `src/` (the validity
enumeration, `attr_position_valid_comp`, the trigonometric and geodesy
helpers, and the vehicle/road profile lookup) is modelled from the
specification; each such definition carries a doc comment starting with
`Modelled from the spec:`. The preference enumeration, by contrast, is
declared in the staged sources (the location.h text bundled into
`src/navit/traffic/traff_http/traffic_traff_http.c`) and is embedded
from there.
-/

/-- C `INT_MAX` (32-bit). `get_effective_preference_level` returns
`-INT_MAX` for an invalid location. -/
def INT_MAX : ℤ := 2147483647

/-- Modelled from the spec: `enum attr_position_valid` (declared in a
header outside `src/`). Spec ordering: invalid < extrapolated-by-time <
extrapolated-spatially < static < valid. The zero (default) value is
`invalid`, which the code relies on via `g_new0`. -/
inductive AttrPositionValid
  | invalid
  | static
  | extrapolated_time
  | extrapolated_spatial
  | valid
deriving DecidableEq

/-- Modelled from the spec: the rank of a validity value in the spec's
order invalid < extrapolated-by-time < extrapolated-spatially < static
< valid, used by the dedicated validity comparator. -/
def validity_rank : AttrPositionValid → ℤ
  | .invalid => 0
  | .extrapolated_time => 1
  | .extrapolated_spatial => 2
  | .static => 3
  | .valid => 4

/-- Modelled from the spec: `attr_position_valid_comp` (defined outside
`src/`), the dedicated validity comparator; positive iff the first
argument ranks strictly higher in the spec's validity order. -/
def attr_position_valid_comp (a b : AttrPositionValid) : ℤ :=
  validity_rank a - validity_rank b

/-- `enum preference`, the static trust ranking of a source, ordered
low < medium < high. Declared in the location.h text staged at
`src/navit/traffic/traff_http/traffic_traff_http.c` lines 715-719:
`preference_low = 0`, `preference_medium = 1`, `preference_high = 2`. -/
inductive Preference
  | low
  | medium
  | high
deriving DecidableEq

/-- Numeric value of a preference level, as declared in the source:
`preference_low = 0`, `preference_medium = 1`, `preference_high = 2`. -/
def Preference.toInt : Preference → ℤ
  | .low => 0
  | .medium => 1
  | .high => 2

/-- C `struct timeval`. -/
structure Timeval where
  tv_sec : ℤ
  tv_usec : ℤ
deriving DecidableEq

/-- The system `timercmp(a, b, >)` macro: lexicographic comparison of
seconds then microseconds. -/
def timercmpGT (a b : Timeval) : Prop :=
  if a.tv_sec = b.tv_sec then a.tv_usec > b.tv_usec else a.tv_sec > b.tv_sec

instance (a b : Timeval) : Decidable (timercmpGT a b) := by
  unfold timercmpGT; infer_instance

/-- `struct coord_geo`: a geodetic position. -/
structure GeoPair where
  lat : ℚ
  lng : ℚ
deriving DecidableEq

/-- `enum location_flags`, modelled as a record of the six disjoint
bits (`0x1` geo, `0x2` speed, `0x4` direction, `0x8` height,
`0x10` radius, `0x20` sat data). -/
structure LocFlags where
  has_geo : Bool
  has_speed : Bool
  has_direction : Bool
  has_height : Bool
  has_radius : Bool
  has_sat_data : Bool
deriving DecidableEq

/-- The all-clear flag set (a zeroed `flags` field). -/
def LocFlags.none : LocFlags :=
  ⟨false, false, false, false, false, false⟩

/-- C `struct location` (location.c lines 93-122). `fixiso8601` is
modelled as the formatted `tv_sec` (the `strftime`/`gmtime` output is an
injective pure function of `tv_sec` alone). -/
structure Location where
  geo : GeoPair
  speed : ℚ
  direction : ℚ
  height : ℚ
  radius : ℚ
  fix_type : ℤ
  fix_time : Timeval
  fixiso8601 : ℤ
  sats : ℤ
  sats_used : ℤ
  valid : AttrPositionValid
  flags : LocFlags
  preference : ℤ
deriving DecidableEq

/-- Modelled from the spec: the `strftime("%Y-%m-%dT%TZ", gmtime(sec))`
formatting used for `fixiso8601`, an injective pure function of the
seconds value; modelled as the identity on seconds. -/
def formatIso8601 (sec : ℤ) : ℤ := sec

/-- A zeroed `struct location` (`g_new0`): every member zero, hence
validity `invalid` (the zero enum value) and an empty presence bitset. -/
def emptyLocation : Location :=
  { geo := ⟨0, 0⟩, speed := 0, direction := 0, height := 0, radius := 0,
    fix_type := 0, fix_time := ⟨0, 0⟩, fixiso8601 := 0, sats := 0,
    sats_used := 0, valid := .invalid, flags := LocFlags.none,
    preference := 0 }

/-- `get_effective_preference_level` (location.c lines 136-150): the
effective preference level of a location, derived from its base
preference level and its validity. -/
def get_effective_preference_level (plev : ℤ) (v : AttrPositionValid) : ℤ :=
  match v with
  | .invalid => -INT_MAX
  | .valid => plev
  | .static => plev
  | .extrapolated_spatial => plev - 1
  | .extrapolated_time => plev - 2

/-- `location_new` (location.c lines 158-163): `g_new0` then validity
set to `invalid`. -/
def location_new : Location :=
  { emptyLocation with valid := .invalid }

/-- `location_has_altitude` (location.c line 447). -/
def location_has_altitude (l : Location) : Bool := l.flags.has_height

/-- `location_has_bearing` (location.c line 462). -/
def location_has_bearing (l : Location) : Bool := l.flags.has_direction

/-- `location_has_position` (location.c line 477). -/
def location_has_position (l : Location) : Bool := l.flags.has_geo

/-- `location_has_position_accuracy` (location.c line 492). -/
def location_has_position_accuracy (l : Location) : Bool := l.flags.has_radius

/-- `location_has_sat_data` (location.c line 507). -/
def location_has_sat_data (l : Location) : Bool := l.flags.has_sat_data

/-- `location_has_speed` (location.c line 522). -/
def location_has_speed (l : Location) : Bool := l.flags.has_speed

/-- `location_set_altitude` (location.c line 538). -/
def location_set_altitude (l : Location) (altitude : ℚ) : Location :=
  { l with height := altitude, flags := { l.flags with has_height := true } }

/-- `location_set_bearing` (location.c line 554). -/
def location_set_bearing (l : Location) (bearing : ℚ) : Location :=
  { l with direction := bearing,
           flags := { l.flags with has_direction := true } }

/-- `location_set_fix_time` (location.c line 568): stores the timestamp
and regenerates the ISO 8601 string from its seconds. -/
def location_set_fix_time (l : Location) (t : Timeval) : Location :=
  { l with fix_time := t, fixiso8601 := formatIso8601 t.tv_sec }

/-- `location_set_fix_type` (location.c line 589). -/
def location_set_fix_type (l : Location) (t : ℤ) : Location :=
  { l with fix_type := t }

/-- `location_set_position` (location.c line 604). -/
def location_set_position (l : Location) (p : GeoPair) : Location :=
  { l with geo := p, flags := { l.flags with has_geo := true } }

/-- `location_set_position_accuracy` (location.c line 622). -/
def location_set_position_accuracy (l : Location) (accuracy : ℤ) : Location :=
  { l with radius := (accuracy : ℚ),
           flags := { l.flags with has_radius := true } }

/-- `location_set_speed` (location.c line 666). -/
def location_set_speed (l : Location) (speed : ℚ) : Location :=
  { l with speed := speed, flags := { l.flags with has_speed := true } }

/-- `location_set_validity` (location.c line 680). -/
def location_set_validity (l : Location) (v : AttrPositionValid) : Location :=
  { l with valid := v }

/-- Claim C1: `get_effective_preference_level(plev, valid)` returns
`-INT_MAX` when the validity is invalid, `plev` when it is valid or
static, `plev - 1` when it is extrapolated-spatially and `plev - 2`
otherwise (extrapolated-by-time); consequently for every pair of
preference levels `p` and `q`, the effective preference level of an
invalid location is strictly below that of a valid one. -/
theorem C1_effective_preference_level :
    (∀ plev : ℤ, get_effective_preference_level plev .invalid = -INT_MAX) ∧
    (∀ plev : ℤ, get_effective_preference_level plev .valid = plev ∧
      get_effective_preference_level plev .static = plev) ∧
    (∀ plev : ℤ, get_effective_preference_level plev .extrapolated_spatial = plev - 1) ∧
    (∀ plev : ℤ, get_effective_preference_level plev .extrapolated_time = plev - 2) ∧
    (∀ p q : Preference,
      get_effective_preference_level p.toInt .invalid <
        get_effective_preference_level q.toInt .valid) := by
  refine ⟨fun _ => rfl, fun _ => ⟨rfl, rfl⟩, fun _ => rfl, fun _ => rfl, ?_⟩
  intro p q
  cases p <;> cases q <;> decide

/-- Claim C10: every location returned by `location_new` has validity
`invalid` and an empty presence bitset: all the `location_has_*`
accessors return false, and its effective preference level is
`-INT_MAX`, so as a raw input it can never contribute to fusion. -/
theorem C10_location_new_inert :
    location_new.valid = .invalid ∧
    location_new.flags = LocFlags.none ∧
    location_has_position location_new = false ∧
    location_has_speed location_new = false ∧
    location_has_bearing location_new = false ∧
    location_has_altitude location_new = false ∧
    location_has_position_accuracy location_new = false ∧
    location_has_sat_data location_new = false ∧
    get_effective_preference_level location_new.preference location_new.valid
      = -INT_MAX := by
  decide

/-- Cartesian coordinates (`struct coord_geo_cart`) on the unit sphere,
used to average between positions. -/
structure Cart3 where
  x : ℚ
  y : ℚ
  z : ℚ
deriving DecidableEq

/-- Modelled from the spec: the external pure math utilities used by the
fusion engine — `navit_cos`, `navit_sin`, `navit_acos` (navit_float),
`sqrtf`, and the geodetic/Cartesian conversions `transform_geo_to_cart`
and `transform_cart_to_geo` (transform.c), none of which are under
`src/`. They are kept abstract as a record of pure functions; theorems
that depend on their mathematical properties state those properties as
hypotheses. `geo_to_cart` takes latitude and longitude (the unit-sphere
call `transform_geo_to_cart(geo, 1, 1, &cart)`); `cart_to_geo` takes the
Cartesian vector and the radius argument passed twice by the code. -/
structure TrigOps where
  cos : ℚ → ℚ
  sin : ℚ → ℚ
  acos : ℚ → ℚ
  sqrt : ℚ → ℚ
  geo_to_cart : ℚ → ℚ → Cart3
  cart_to_geo : Cart3 → ℚ → GeoPair

/-- A trivial instance of the math utilities (all zero), usable to
evaluate code paths that never consult them. -/
def trigZero : TrigOps :=
  { cos := fun _ => 0, sin := fun _ => 0, acos := fun _ => 0,
    sqrt := fun _ => 0, geo_to_cart := fun _ _ => ⟨0, 0, 0⟩,
    cart_to_geo := fun _ _ => ⟨0, 0⟩ }

/-- The attributes for which `location_update` can fire a change
callback, in the code's naming. -/
inductive PosAttr
  | position_valid
  | position_fix_type
  | position_qual
  | position_sats_used
  | position_coord_geo
deriving DecidableEq

/-- State of the first pass of `location_update` (location.c lines
969-1036): per-group best effective preference levels and tie counts,
plus the metadata collected into the temporary location `tmp`. -/
structure P1State where
  tmp : Location
  geo_eplev : ℤ
  speed_eplev : ℤ
  direction_eplev : ℤ
  height_eplev : ℤ
  geo_count : ℕ
  direction_count : ℕ

/-- Initial first-pass state: eplevs at `-INT_MAX`, counts at zero,
`tmp` freshly zeroed by `g_new0`. -/
def p1Init : P1State :=
  { tmp := emptyLocation, geo_eplev := -INT_MAX, speed_eplev := -INT_MAX,
    direction_eplev := -INT_MAX, height_eplev := -INT_MAX,
    geo_count := 0, direction_count := 0 }

/-- The best-fix-type / latest-fix-time / best-validity / highest-
preference merge of a raw location's metadata into `tmp`, shared by the
tie branch of pass 1 (location.c lines 1013-1022) and the
no-position-contributor branch of pass 2 (lines 1097-1106). -/
def mergeMeta (tmp : Location) (l : Location) : Location :=
  { tmp with
    fix_type := if l.fix_type > tmp.fix_type then l.fix_type
                else tmp.fix_type,
    fix_time := if timercmpGT l.fix_time tmp.fix_time then l.fix_time
                else tmp.fix_time,
    valid := if attr_position_valid_comp l.valid tmp.valid > 0 then l.valid
             else tmp.valid,
    preference := if l.preference > tmp.preference then l.preference
                  else tmp.preference }

/-- The position block of pass 1 (location.c lines 1002-1024). -/
def pass1_geo (l : Location) (e : ℤ) (s : P1State) : P1State :=
  if l.flags.has_geo then
    if e > s.geo_eplev then
      { s with geo_eplev := e, geo_count := 1,
               tmp := { s.tmp with fix_type := l.fix_type,
                                   fix_time := l.fix_time,
                                   valid := l.valid,
                                   preference := l.preference } }
    else if e = s.geo_eplev then
      { s with geo_count := s.geo_count + 1, tmp := mergeMeta s.tmp l }
    else s
  else s

/-- The speed block of pass 1 (location.c lines 1025-1026). -/
def pass1_speed (l : Location) (e : ℤ) (s : P1State) : P1State :=
  if e > s.speed_eplev ∧ l.flags.has_speed then
    { s with speed_eplev := e }
  else s

/-- The bearing block of pass 1 (location.c lines 1027-1033). -/
def pass1_direction (l : Location) (e : ℤ) (s : P1State) : P1State :=
  if l.flags.has_direction then
    if e > s.direction_eplev then
      { s with direction_eplev := e, direction_count := 1 }
    else if e = s.direction_eplev then
      { s with direction_count := s.direction_count + 1 }
    else s
  else s

/-- The altitude block of pass 1 (location.c lines 1034-1035). -/
def pass1_height (l : Location) (e : ℤ) (s : P1State) : P1State :=
  if e > s.height_eplev ∧ l.flags.has_height then
    { s with height_eplev := e }
  else s

/-- One iteration of the first pass of `location_update` (location.c
lines 997-1036). -/
def pass1_step (s : P1State) (l : Location) : P1State :=
  let e := get_effective_preference_level l.preference l.valid
  if e = -INT_MAX then s
  else pass1_height l e (pass1_direction l e (pass1_speed l e
    (pass1_geo l e s)))

/-- The first pass of `location_update` over the raw set. -/
def pass1 (inp : List Location) : P1State :=
  inp.foldl pass1_step p1Init

/-- State of the second pass of `location_update` (location.c lines
981-991): the temporary location plus the aggregation accumulators. -/
structure P2State where
  tmp : Location
  cart : Cart3
  geo_k : ℚ
  geo_p : ℚ
  speed_weight : ℚ
  height_weight : ℚ
  dirx : ℚ
  diry : ℚ

/-- Initial second-pass state, continuing from the `tmp` produced by the
first pass; all accumulators zero. -/
def p2Init (tmp : Location) : P2State :=
  { tmp := tmp, cart := ⟨0, 0, 0⟩, geo_k := 0, geo_p := 0,
    speed_weight := 0, height_weight := 0, dirx := 0, diry := 0 }

/-- The position block of pass 2 (location.c lines 1047-1071): direct
copy for a single contributor, incremental precision-weighted Cartesian
averaging for several. -/
def pass2_geo (ops : TrigOps) (p1 : P1State) (l : Location) (e : ℤ)
    (su : P2State × Bool) : P2State × Bool :=
  let s := su.1
  if l.flags.has_geo ∧ e = p1.geo_eplev then
    (if p1.geo_count = 1 then
      { s with tmp := { s.tmp with geo := ⟨l.geo.lat, l.geo.lng⟩,
                                   radius := l.radius,
                                   flags := { s.tmp.flags with
                                              has_geo := true } } }
     else if p1.geo_count > 1 then
      (if s.geo_p = 0 then
        { s with geo_p := l.radius * l.radius,
                 cart := ops.geo_to_cart l.geo.lat l.geo.lng }
       else
        let k := s.geo_p / (s.geo_p + l.radius * l.radius)
        let ci := ops.geo_to_cart l.geo.lat l.geo.lng
        { s with geo_k := k, geo_p := s.geo_p * (1 - k),
                 cart := ⟨(1 - k) * s.cart.x + k * ci.x,
                          (1 - k) * s.cart.y + k * ci.y,
                          (1 - k) * s.cart.z + k * ci.z⟩ })
     else s, true)
  else su

/-- The speed block of pass 2 (location.c lines 1072-1076): a weighted
sum with weight `1 / radius`. -/
def pass2_speed (p1 : P1State) (l : Location) (e : ℤ) (weight_i : ℚ)
    (su : P2State × Bool) : P2State × Bool :=
  let s := su.1
  if l.flags.has_speed ∧ e = p1.speed_eplev then
    ({ s with speed_weight := s.speed_weight + weight_i,
              tmp := { s.tmp with
                       speed := s.tmp.speed + l.speed * weight_i } }, true)
  else su

/-- The bearing block of pass 2 (location.c lines 1077-1088): direct
copy for a single contributor, weighted Cartesian accumulation for
several. -/
def pass2_direction (ops : TrigOps) (p1 : P1State) (l : Location) (e : ℤ)
    (weight_i : ℚ) (su : P2State × Bool) : P2State × Bool :=
  let s := su.1
  if l.flags.has_direction ∧ e = p1.direction_eplev then
    (if p1.direction_count = 1 then
      { s with tmp := { s.tmp with direction := l.direction,
                                   flags := { s.tmp.flags with
                                              has_direction := true } } }
     else if p1.direction_count > 1 then
      { s with dirx := s.dirx + weight_i * ops.cos l.direction,
               diry := s.diry + weight_i * ops.sin l.direction }
     else s, true)
  else su

/-- The altitude block of pass 2 (location.c lines 1089-1093): a
weighted sum with weight `1 / radius`. -/
def pass2_height (p1 : P1State) (l : Location) (e : ℤ) (weight_i : ℚ)
    (su : P2State × Bool) : P2State × Bool :=
  let s := su.1
  if l.flags.has_height ∧ e = p1.height_eplev then
    ({ s with height_weight := s.height_weight + weight_i,
              tmp := { s.tmp with
                       height := s.tmp.height + l.height * weight_i } }, true)
  else su

/-- The used-location epilogue of pass 2 (location.c lines 1094-1113):
for locations that contributed some value, merge metadata when no
position contributor exists, and copy satellite data verbatim. -/
def pass2_used (p1 : P1State) (l : Location) (su : P2State × Bool) :
    P2State :=
  let s := su.1
  if su.2 then
    let s :=
      if p1.geo_count = 0 then { s with tmp := mergeMeta s.tmp l }
      else s
    if l.flags.has_sat_data then
      { s with tmp := { s.tmp with sats := l.sats,
                                   sats_used := l.sats_used,
                                   flags := { s.tmp.flags with
                                              has_sat_data := true } } }
    else s
  else s

/-- One iteration of the second pass of `location_update` (location.c
lines 1040-1114). -/
def pass2_step (ops : TrigOps) (p1 : P1State) (s : P2State) (l : Location) :
    P2State :=
  let e := get_effective_preference_level l.preference l.valid
  if e = -INT_MAX then s
  else
    let weight_i : ℚ := 1 / l.radius
    pass2_used p1 l (pass2_height p1 l e weight_i
      (pass2_direction ops p1 l e weight_i (pass2_speed p1 l e weight_i
        (pass2_geo ops p1 l e (s, false)))))

/-- The second pass of `location_update` over the raw set. -/
def pass2 (ops : TrigOps) (p1 : P1State) (inp : List Location) : P2State :=
  inp.foldl (pass2_step ops p1) (p2Init p1.tmp)

/-- The position epilogue of `location_update` (location.c lines
1119-1130): convert the accumulated Cartesian vector back to a geodetic
position using its length as radius, skipping the update when the
contributors cancel out (zero-length vector). -/
def post_geo (ops : TrigOps) (p1 : P1State) (s : P2State) (tmp : Location) :
    Location :=
  if p1.geo_count > 1 then
    let geo_len := ops.sqrt (s.cart.x * s.cart.x + s.cart.y * s.cart.y +
      s.cart.z * s.cart.z)
    if geo_len > 0 then
      { tmp with geo := ops.cart_to_geo s.cart geo_len,
                 radius := ops.sqrt s.geo_p,
                 flags := { tmp.flags with has_geo := true } }
    else tmp
  else tmp

/-- The speed epilogue of `location_update` (location.c lines
1131-1134): divide the weighted sum by the total weight. -/
def post_speed (s : P2State) (tmp : Location) : Location :=
  if s.speed_weight ≠ 0 then
    { tmp with speed := tmp.speed / s.speed_weight,
               flags := { tmp.flags with has_speed := true } }
  else tmp

/-- The bearing epilogue of `location_update` (location.c lines
1135-1147): recover the averaged bearing from the accumulated Cartesian
components, skipping the update when the magnitude is not positive
(contributors cancel out). -/
def post_direction (ops : TrigOps) (p1 : P1State) (s : P2State)
    (tmp : Location) : Location :=
  if p1.direction_count > 1 then
    let direction_weight := ops.sqrt (s.dirx + s.dirx + s.diry + s.diry)
    let dirval : ℚ :=
      if s.diry ≥ 0 then ops.acos (s.dirx / direction_weight)
      else 360 - ops.acos (s.dirx / direction_weight)
    if direction_weight > 0 then
      { tmp with direction := dirval,
                 flags := { tmp.flags with has_direction := true } }
    else tmp
  else tmp

/-- The altitude epilogue of `location_update` (location.c lines
1148-1151): divide the weighted sum by the total weight. -/
def post_height (s : P2State) (tmp : Location) : Location :=
  if s.height_weight ≠ 0 then
    { tmp with height := tmp.height / s.height_weight,
               flags := { tmp.flags with has_height := true } }
  else tmp

/-- The aggregation epilogue of `location_update` (location.c lines
1119-1151). -/
def postProcess (ops : TrigOps) (p1 : P1State) (s : P2State) : Location :=
  post_height s (post_direction ops p1 s (post_speed s
    (post_geo ops p1 s s.tmp)))

/-- The temporary fused location computed by `location_update` from the
raw set alone (location.c lines 996-1151); the previous fused location
is not consulted before the copy phase. -/
def fuse (ops : TrigOps) (inp : List Location) : Location :=
  let p1 := pass1 inp
  postProcess ops p1 (pass2 ops p1 inp)

/-- The copy phase of `location_update` (location.c lines 1153-1186):
every member of `out` except `preference` is overwritten with the
corresponding member of `tmp`; the ISO 8601 string is regenerated only
when the fix time changed. -/
def copyPhase (tmp lout : Location) : Location :=
  { lout with
    geo := tmp.geo, speed := tmp.speed, direction := tmp.direction,
    height := tmp.height, radius := tmp.radius, fix_type := tmp.fix_type,
    fix_time := tmp.fix_time,
    fixiso8601 :=
      if lout.fix_time.tv_sec ≠ tmp.fix_time.tv_sec ∨
          lout.fix_time.tv_usec ≠ tmp.fix_time.tv_usec then
        formatIso8601 tmp.fix_time.tv_sec
      else lout.fixiso8601,
    sats := tmp.sats, sats_used := tmp.sats_used, valid := tmp.valid,
    flags := tmp.flags }

/-- The callback stage of `location_update` (location.c lines
1188-1212): change flags are computed by comparing the previous fused
location with `tmp`; the validity callback fires first, every other
callback is suppressed when the new validity is `invalid`, and otherwise
fix type, satellite count, satellites used and position follow in fixed
order. -/
def fireList (tmp lout : Location) : List PosAttr :=
  let l1 : List PosAttr :=
    if lout.valid ≠ tmp.valid then [.position_valid] else []
  if tmp.valid = .invalid then l1
  else
    l1 ++ (if lout.fix_type ≠ tmp.fix_type then [.position_fix_type] else [])
       ++ (if lout.sats ≠ tmp.sats then [.position_qual] else [])
       ++ (if lout.sats_used ≠ tmp.sats_used then [.position_sats_used] else [])
       ++ (if lout.geo.lat ≠ tmp.geo.lat ∨ lout.geo.lng ≠ tmp.geo.lng then
             [.position_coord_geo] else [])

/-- `location_update` (location.c lines 967-1213): fuses the raw
locations into the previous fused location and returns the updated fused
location together with the list of change callbacks fired, in firing
order. -/
def location_update (ops : TrigOps) (inp : List Location) (lout : Location) :
    Location × List PosAttr :=
  let tmp := fuse ops inp
  (copyPhase tmp lout, fireList tmp lout)

/-- Claim C9: calling `location_update` a second time with a raw set
identical to the previous pass, and with the output of the first pass as
the previous fused location, triggers zero change callbacks on the
second pass. -/
theorem C9_identical_second_pass_silent (ops : TrigOps) (inp : List Location)
    (out0 : Location) :
    (location_update ops inp (location_update ops inp out0).1).2 = [] := by
  show (fireList (fuse ops inp) (copyPhase (fuse ops inp) out0)) = []
  simp [fireList, copyPhase]

/-- Claim C4: when `location_update` ends a cycle with fused validity
`invalid`, the only callback it may fire is the validity-change callback
(fired exactly when validity changed) and all others are suppressed;
otherwise it fires callbacks in the fixed order validity, fix-type,
satellite-count, satellites-used, position, each fired exactly when the
corresponding fused field changed relative to its pre-update value. -/
theorem C4_callback_discipline (ops : TrigOps) (inp : List Location)
    (lout : Location) :
    ((location_update ops inp lout).1.valid = .invalid →
      (location_update ops inp lout).2 =
        (if lout.valid ≠ (location_update ops inp lout).1.valid then
          [PosAttr.position_valid] else [])) ∧
    ((location_update ops inp lout).1.valid ≠ .invalid →
      (location_update ops inp lout).2 =
        (if lout.valid ≠ (location_update ops inp lout).1.valid then
          [PosAttr.position_valid] else []) ++
        (if lout.fix_type ≠ (location_update ops inp lout).1.fix_type then
          [PosAttr.position_fix_type] else []) ++
        (if lout.sats ≠ (location_update ops inp lout).1.sats then
          [PosAttr.position_qual] else []) ++
        (if lout.sats_used ≠ (location_update ops inp lout).1.sats_used then
          [PosAttr.position_sats_used] else []) ++
        (if lout.geo.lat ≠ (location_update ops inp lout).1.geo.lat ∨
            lout.geo.lng ≠ (location_update ops inp lout).1.geo.lng then
          [PosAttr.position_coord_geo] else [])) := by
  have h1 : (location_update ops inp lout).1.valid = (fuse ops inp).valid := rfl
  constructor
  · intro hv
    rw [h1] at hv
    show fireList (fuse ops inp) lout = _
    rw [fireList, if_pos hv, h1]
  · intro hv
    rw [h1] at hv
    show fireList (fuse ops inp) lout = _
    rw [fireList, if_neg hv, h1]
    rfl

/-- Witness for C4: with an empty raw set and a zeroed previous fused
location the cycle ends invalid, and the fired list is exactly the
validity-conditional singleton (here empty, since validity did not
change). -/
theorem C4_callback_discipline_witness :
    (location_update trigZero [] emptyLocation).2 =
      (if emptyLocation.valid ≠ (location_update trigZero [] emptyLocation).1.valid
       then [PosAttr.position_valid] else []) :=
  (C4_callback_discipline trigZero [] emptyLocation).1 (by rfl)

/-- The failing input for claim C2: a single raw location carrying every
attribute group, accuracy radius 1, validity `valid` and preference
level high (2). -/
def C2src : Location :=
  { geo := ⟨10, 20⟩, speed := 30, direction := 45, height := 100, radius := 1,
    fix_type := 1, fix_time := ⟨100, 0⟩, fixiso8601 := 0, sats := 8,
    sats_used := 5, valid := .valid,
    flags := ⟨true, true, true, true, true, true⟩, preference := 2 }

/-- Claim C2, evaluated at the failing input: for the single-source raw
set `[C2src]` fused into a zeroed previous location, position, accuracy
radius, speed, bearing, altitude, satellite counts, fix type, fix time
and validity all equal the source's fields exactly — but the fused
`preference` is left at the previous location's value 0 instead of the
source's 2, because the copy phase of `location_update` never writes
`out->preference` (contradicting the function's own documentation, which
promises that `preference` is taken from the contributing inputs). -/
theorem C2_single_source_identity_at_failing_input :
    (location_update trigZero [C2src] emptyLocation).1.geo = C2src.geo ∧
    (location_update trigZero [C2src] emptyLocation).1.radius = C2src.radius ∧
    (location_update trigZero [C2src] emptyLocation).1.speed = C2src.speed ∧
    (location_update trigZero [C2src] emptyLocation).1.direction = C2src.direction ∧
    (location_update trigZero [C2src] emptyLocation).1.height = C2src.height ∧
    (location_update trigZero [C2src] emptyLocation).1.sats = C2src.sats ∧
    (location_update trigZero [C2src] emptyLocation).1.sats_used = C2src.sats_used ∧
    (location_update trigZero [C2src] emptyLocation).1.fix_type = C2src.fix_type ∧
    (location_update trigZero [C2src] emptyLocation).1.fix_time = C2src.fix_time ∧
    (location_update trigZero [C2src] emptyLocation).1.valid = C2src.valid ∧
    C2src.preference = 2 ∧
    (location_update trigZero [C2src] emptyLocation).1.preference = 0 := by
  norm_num [location_update, fuse, pass1, pass2, postProcess, copyPhase,
    pass1_step, pass2_step, pass1_geo, pass1_speed, pass1_direction,
    pass1_height, pass2_geo, pass2_speed, pass2_direction, pass2_height,
    pass2_used, mergeMeta, post_geo, post_speed, post_direction, post_height,
    p1Init, p2Init, emptyLocation, C2src,
    get_effective_preference_level, INT_MAX, LocFlags.none, timercmpGT,
    attr_position_valid_comp, validity_rank, trigZero]

/-- A raw location is eligible for fusion when its effective preference
level is above the `-INT_MAX` sentinel. -/
def eligible (l : Location) : Prop :=
  get_effective_preference_level l.preference l.valid ≠ -INT_MAX

theorem foldl_invariant {α σ : Type _} (P : σ → Prop) (f : σ → α → σ)
    (l : List α) (s : σ) (h0 : P s)
    (hstep : ∀ s a, a ∈ l → P s → P (f s a)) : P (l.foldl f s) := by
  induction l generalizing s with
  | nil => exact h0
  | cons a t ih =>
      exact ih _ (hstep _ _ (List.mem_cons_self a t) h0)
        (fun s' b hb hs' => hstep s' b (List.mem_cons_of_mem a hb) hs')

theorem pass1_geo_pres (l : Location) (e : ℤ) (s : P1State) :
    (pass1_geo l e s).tmp.geo = s.tmp.geo ∧
    (pass1_geo l e s).tmp.speed = s.tmp.speed ∧
    (pass1_geo l e s).tmp.direction = s.tmp.direction ∧
    (pass1_geo l e s).tmp.height = s.tmp.height ∧
    (pass1_geo l e s).tmp.radius = s.tmp.radius ∧
    (pass1_geo l e s).tmp.sats = s.tmp.sats ∧
    (pass1_geo l e s).tmp.sats_used = s.tmp.sats_used ∧
    (pass1_geo l e s).tmp.flags = s.tmp.flags ∧
    (pass1_geo l e s).speed_eplev = s.speed_eplev ∧
    (pass1_geo l e s).direction_eplev = s.direction_eplev ∧
    (pass1_geo l e s).height_eplev = s.height_eplev ∧
    (pass1_geo l e s).direction_count = s.direction_count := by
  unfold pass1_geo mergeMeta
  split_ifs <;> simp

theorem pass1_geo_skip (l : Location) (e : ℤ) (s : P1State)
    (hf : l.flags.has_geo = false) : pass1_geo l e s = s := by
  unfold pass1_geo
  simp [hf]

theorem pass1_speed_pres (l : Location) (e : ℤ) (s : P1State) :
    (pass1_speed l e s).tmp = s.tmp ∧
    (pass1_speed l e s).geo_count = s.geo_count ∧
    (pass1_speed l e s).direction_eplev = s.direction_eplev ∧
    (pass1_speed l e s).height_eplev = s.height_eplev ∧
    (pass1_speed l e s).direction_count = s.direction_count := by
  unfold pass1_speed
  split_ifs <;> simp

theorem pass1_direction_pres (l : Location) (e : ℤ) (s : P1State) :
    (pass1_direction l e s).tmp = s.tmp ∧
    (pass1_direction l e s).geo_count = s.geo_count ∧
    (pass1_direction l e s).speed_eplev = s.speed_eplev ∧
    (pass1_direction l e s).height_eplev = s.height_eplev := by
  unfold pass1_direction
  split_ifs <;> simp

theorem pass1_direction_skip (l : Location) (e : ℤ) (s : P1State)
    (hf : l.flags.has_direction = false) : pass1_direction l e s = s := by
  unfold pass1_direction
  simp [hf]

theorem pass1_height_pres (l : Location) (e : ℤ) (s : P1State) :
    (pass1_height l e s).tmp = s.tmp ∧
    (pass1_height l e s).geo_count = s.geo_count ∧
    (pass1_height l e s).speed_eplev = s.speed_eplev ∧
    (pass1_height l e s).direction_eplev = s.direction_eplev ∧
    (pass1_height l e s).direction_count = s.direction_count := by
  unfold pass1_height
  split_ifs <;> simp

/-- Pass 1 never writes the data members or the presence flags of the
temporary location; they keep their `g_new0` values. -/
theorem pass1_data_zero (inp : List Location) :
    (pass1 inp).tmp.geo = (⟨0, 0⟩ : GeoPair) ∧
    (pass1 inp).tmp.speed = 0 ∧
    (pass1 inp).tmp.direction = 0 ∧
    (pass1 inp).tmp.height = 0 ∧
    (pass1 inp).tmp.radius = 0 ∧
    (pass1 inp).tmp.sats = 0 ∧
    (pass1 inp).tmp.sats_used = 0 ∧
    (pass1 inp).tmp.flags = LocFlags.none := by
  unfold pass1
  refine foldl_invariant (fun s => s.tmp.geo = (⟨0, 0⟩ : GeoPair) ∧
    s.tmp.speed = 0 ∧ s.tmp.direction = 0 ∧ s.tmp.height = 0 ∧
    s.tmp.radius = 0 ∧ s.tmp.sats = 0 ∧ s.tmp.sats_used = 0 ∧
    s.tmp.flags = LocFlags.none) pass1_step inp p1Init
    (by simp [p1Init, emptyLocation]) ?_
  intro s a _ hs
  simp only [pass1_step]
  split_ifs with he
  · exact hs
  · simp only [pass1_height_pres, pass1_direction_pres, pass1_speed_pres,
      pass1_geo_pres]
    exact hs

/-- When no eligible raw location supplies a position, pass 1 leaves the
position tie counter at zero. -/
theorem pass1_geo_count_zero (inp : List Location)
    (hg : ∀ l ∈ inp, eligible l → l.flags.has_geo = false) :
    (pass1 inp).geo_count = 0 := by
  unfold pass1
  refine foldl_invariant (fun s => s.geo_count = 0) pass1_step inp p1Init
    (by simp [p1Init]) ?_
  intro s a ha hs
  simp only [pass1_step]
  split_ifs with he
  · exact hs
  · simp only [pass1_height_pres, pass1_direction_pres, pass1_speed_pres,
      pass1_geo_skip _ _ _ (hg a ha he)]
    exact hs

/-- When no eligible raw location supplies a bearing, pass 1 leaves the
bearing tie counter at zero. -/
theorem pass1_direction_count_zero (inp : List Location)
    (hg : ∀ l ∈ inp, eligible l → l.flags.has_direction = false) :
    (pass1 inp).direction_count = 0 := by
  unfold pass1
  refine foldl_invariant (fun s => s.direction_count = 0) pass1_step inp p1Init
    (by simp [p1Init]) ?_
  intro s a ha hs
  simp only [pass1_step]
  split_ifs with he
  · exact hs
  · simp only [pass1_height_pres, pass1_direction_skip _ _ _ (hg a ha he),
      pass1_speed_pres, pass1_geo_pres]
    exact hs

theorem pass2_geo_pres (ops : TrigOps) (p1 : P1State) (l : Location) (e : ℤ)
    (su : P2State × Bool) :
    (pass2_geo ops p1 l e su).1.tmp.speed = su.1.tmp.speed ∧
    (pass2_geo ops p1 l e su).1.tmp.direction = su.1.tmp.direction ∧
    (pass2_geo ops p1 l e su).1.tmp.height = su.1.tmp.height ∧
    (pass2_geo ops p1 l e su).1.tmp.sats = su.1.tmp.sats ∧
    (pass2_geo ops p1 l e su).1.tmp.sats_used = su.1.tmp.sats_used ∧
    (pass2_geo ops p1 l e su).1.tmp.flags.has_speed = su.1.tmp.flags.has_speed ∧
    (pass2_geo ops p1 l e su).1.tmp.flags.has_direction
      = su.1.tmp.flags.has_direction ∧
    (pass2_geo ops p1 l e su).1.tmp.flags.has_height
      = su.1.tmp.flags.has_height ∧
    (pass2_geo ops p1 l e su).1.tmp.flags.has_sat_data
      = su.1.tmp.flags.has_sat_data ∧
    (pass2_geo ops p1 l e su).1.speed_weight = su.1.speed_weight ∧
    (pass2_geo ops p1 l e su).1.height_weight = su.1.height_weight := by
  unfold pass2_geo
  split_ifs <;> (try simp) <;> (try split_ifs) <;> (try simp)

theorem pass2_geo_skip (ops : TrigOps) (p1 : P1State) (l : Location) (e : ℤ)
    (su : P2State × Bool) (hf : l.flags.has_geo = false) :
    pass2_geo ops p1 l e su = su := by
  unfold pass2_geo
  simp [hf]

theorem pass2_speed_pres (p1 : P1State) (l : Location) (e : ℤ) (w : ℚ)
    (su : P2State × Bool) :
    (pass2_speed p1 l e w su).1.tmp.geo = su.1.tmp.geo ∧
    (pass2_speed p1 l e w su).1.tmp.radius = su.1.tmp.radius ∧
    (pass2_speed p1 l e w su).1.tmp.direction = su.1.tmp.direction ∧
    (pass2_speed p1 l e w su).1.tmp.height = su.1.tmp.height ∧
    (pass2_speed p1 l e w su).1.tmp.sats = su.1.tmp.sats ∧
    (pass2_speed p1 l e w su).1.tmp.sats_used = su.1.tmp.sats_used ∧
    (pass2_speed p1 l e w su).1.tmp.flags.has_geo = su.1.tmp.flags.has_geo ∧
    (pass2_speed p1 l e w su).1.tmp.flags.has_direction
      = su.1.tmp.flags.has_direction ∧
    (pass2_speed p1 l e w su).1.tmp.flags.has_height
      = su.1.tmp.flags.has_height ∧
    (pass2_speed p1 l e w su).1.tmp.flags.has_sat_data
      = su.1.tmp.flags.has_sat_data ∧
    (pass2_speed p1 l e w su).1.height_weight = su.1.height_weight := by
  unfold pass2_speed
  split_ifs <;> simp

theorem pass2_speed_skip (p1 : P1State) (l : Location) (e : ℤ) (w : ℚ)
    (su : P2State × Bool) (hf : l.flags.has_speed = false) :
    pass2_speed p1 l e w su = su := by
  unfold pass2_speed
  simp [hf]

theorem pass2_direction_pres (ops : TrigOps) (p1 : P1State) (l : Location)
    (e : ℤ) (w : ℚ) (su : P2State × Bool) :
    (pass2_direction ops p1 l e w su).1.tmp.geo = su.1.tmp.geo ∧
    (pass2_direction ops p1 l e w su).1.tmp.radius = su.1.tmp.radius ∧
    (pass2_direction ops p1 l e w su).1.tmp.speed = su.1.tmp.speed ∧
    (pass2_direction ops p1 l e w su).1.tmp.height = su.1.tmp.height ∧
    (pass2_direction ops p1 l e w su).1.tmp.sats = su.1.tmp.sats ∧
    (pass2_direction ops p1 l e w su).1.tmp.sats_used = su.1.tmp.sats_used ∧
    (pass2_direction ops p1 l e w su).1.tmp.flags.has_geo
      = su.1.tmp.flags.has_geo ∧
    (pass2_direction ops p1 l e w su).1.tmp.flags.has_speed
      = su.1.tmp.flags.has_speed ∧
    (pass2_direction ops p1 l e w su).1.tmp.flags.has_height
      = su.1.tmp.flags.has_height ∧
    (pass2_direction ops p1 l e w su).1.tmp.flags.has_sat_data
      = su.1.tmp.flags.has_sat_data ∧
    (pass2_direction ops p1 l e w su).1.speed_weight = su.1.speed_weight ∧
    (pass2_direction ops p1 l e w su).1.height_weight = su.1.height_weight := by
  unfold pass2_direction
  split_ifs <;> simp

theorem pass2_direction_skip (ops : TrigOps) (p1 : P1State) (l : Location)
    (e : ℤ) (w : ℚ) (su : P2State × Bool)
    (hf : l.flags.has_direction = false) :
    pass2_direction ops p1 l e w su = su := by
  unfold pass2_direction
  simp [hf]

theorem pass2_height_pres (p1 : P1State) (l : Location) (e : ℤ) (w : ℚ)
    (su : P2State × Bool) :
    (pass2_height p1 l e w su).1.tmp.geo = su.1.tmp.geo ∧
    (pass2_height p1 l e w su).1.tmp.radius = su.1.tmp.radius ∧
    (pass2_height p1 l e w su).1.tmp.speed = su.1.tmp.speed ∧
    (pass2_height p1 l e w su).1.tmp.direction = su.1.tmp.direction ∧
    (pass2_height p1 l e w su).1.tmp.sats = su.1.tmp.sats ∧
    (pass2_height p1 l e w su).1.tmp.sats_used = su.1.tmp.sats_used ∧
    (pass2_height p1 l e w su).1.tmp.flags.has_geo = su.1.tmp.flags.has_geo ∧
    (pass2_height p1 l e w su).1.tmp.flags.has_speed
      = su.1.tmp.flags.has_speed ∧
    (pass2_height p1 l e w su).1.tmp.flags.has_direction
      = su.1.tmp.flags.has_direction ∧
    (pass2_height p1 l e w su).1.tmp.flags.has_sat_data
      = su.1.tmp.flags.has_sat_data ∧
    (pass2_height p1 l e w su).1.speed_weight = su.1.speed_weight := by
  unfold pass2_height
  split_ifs <;> simp

theorem pass2_height_skip (p1 : P1State) (l : Location) (e : ℤ) (w : ℚ)
    (su : P2State × Bool) (hf : l.flags.has_height = false) :
    pass2_height p1 l e w su = su := by
  unfold pass2_height
  simp [hf]

theorem pass2_used_pres (p1 : P1State) (l : Location) (su : P2State × Bool) :
    (pass2_used p1 l su).tmp.geo = su.1.tmp.geo ∧
    (pass2_used p1 l su).tmp.radius = su.1.tmp.radius ∧
    (pass2_used p1 l su).tmp.speed = su.1.tmp.speed ∧
    (pass2_used p1 l su).tmp.direction = su.1.tmp.direction ∧
    (pass2_used p1 l su).tmp.height = su.1.tmp.height ∧
    (pass2_used p1 l su).tmp.flags.has_geo = su.1.tmp.flags.has_geo ∧
    (pass2_used p1 l su).tmp.flags.has_speed = su.1.tmp.flags.has_speed ∧
    (pass2_used p1 l su).tmp.flags.has_direction
      = su.1.tmp.flags.has_direction ∧
    (pass2_used p1 l su).tmp.flags.has_height = su.1.tmp.flags.has_height ∧
    (pass2_used p1 l su).speed_weight = su.1.speed_weight ∧
    (pass2_used p1 l su).height_weight = su.1.height_weight := by
  unfold pass2_used mergeMeta
  split_ifs <;> simp

theorem pass2_used_sat_pres (p1 : P1State) (l : Location)
    (su : P2State × Bool) (hf : l.flags.has_sat_data = false) :
    (pass2_used p1 l su).tmp.sats = su.1.tmp.sats ∧
    (pass2_used p1 l su).tmp.sats_used = su.1.tmp.sats_used ∧
    (pass2_used p1 l su).tmp.flags.has_sat_data
      = su.1.tmp.flags.has_sat_data := by
  unfold pass2_used mergeMeta
  simp [hf]
  split_ifs <;> simp

theorem pass2_keeps_geo (ops : TrigOps) (p1 : P1State) (inp : List Location)
    (hg : ∀ l ∈ inp, eligible l → l.flags.has_geo = false)
    (h1 : p1.tmp.geo = (⟨0, 0⟩ : GeoPair)) (h2 : p1.tmp.radius = 0)
    (h3 : p1.tmp.flags.has_geo = false) :
    (pass2 ops p1 inp).tmp.geo = (⟨0, 0⟩ : GeoPair) ∧
    (pass2 ops p1 inp).tmp.radius = 0 ∧
    (pass2 ops p1 inp).tmp.flags.has_geo = false := by
  unfold pass2
  refine foldl_invariant (fun s => s.tmp.geo = (⟨0, 0⟩ : GeoPair) ∧
    s.tmp.radius = 0 ∧ s.tmp.flags.has_geo = false) _ inp (p2Init p1.tmp)
    (by simp [p2Init, h1, h2, h3]) ?_
  intro s a ha hinv
  simp only [pass2_step]
  split_ifs with he
  · exact hinv
  · simp only [pass2_used_pres, pass2_height_pres, pass2_direction_pres,
      pass2_speed_pres, pass2_geo_skip _ _ _ _ _ (hg a ha he)]
    exact hinv

theorem pass2_keeps_speed (ops : TrigOps) (p1 : P1State) (inp : List Location)
    (hg : ∀ l ∈ inp, eligible l → l.flags.has_speed = false)
    (h1 : p1.tmp.speed = 0) (h3 : p1.tmp.flags.has_speed = false) :
    (pass2 ops p1 inp).tmp.speed = 0 ∧
    (pass2 ops p1 inp).speed_weight = 0 ∧
    (pass2 ops p1 inp).tmp.flags.has_speed = false := by
  unfold pass2
  refine foldl_invariant (fun s => s.tmp.speed = 0 ∧ s.speed_weight = 0 ∧
    s.tmp.flags.has_speed = false) _ inp (p2Init p1.tmp)
    (by simp [p2Init, h1, h3]) ?_
  intro s a ha hinv
  simp only [pass2_step]
  split_ifs with he
  · exact hinv
  · simp only [pass2_used_pres, pass2_height_pres, pass2_direction_pres,
      pass2_speed_skip _ _ _ _ _ (hg a ha he), pass2_geo_pres]
    exact hinv

theorem pass2_keeps_direction (ops : TrigOps) (p1 : P1State)
    (inp : List Location)
    (hg : ∀ l ∈ inp, eligible l → l.flags.has_direction = false)
    (h1 : p1.tmp.direction = 0) (h3 : p1.tmp.flags.has_direction = false) :
    (pass2 ops p1 inp).tmp.direction = 0 ∧
    (pass2 ops p1 inp).tmp.flags.has_direction = false := by
  unfold pass2
  refine foldl_invariant (fun s => s.tmp.direction = 0 ∧
    s.tmp.flags.has_direction = false) _ inp (p2Init p1.tmp)
    (by simp [p2Init, h1, h3]) ?_
  intro s a ha hinv
  simp only [pass2_step]
  split_ifs with he
  · exact hinv
  · simp only [pass2_used_pres, pass2_height_pres,
      pass2_direction_skip _ _ _ _ _ _ (hg a ha he), pass2_speed_pres,
      pass2_geo_pres]
    exact hinv

theorem pass2_keeps_height (ops : TrigOps) (p1 : P1State)
    (inp : List Location)
    (hg : ∀ l ∈ inp, eligible l → l.flags.has_height = false)
    (h1 : p1.tmp.height = 0) (h3 : p1.tmp.flags.has_height = false) :
    (pass2 ops p1 inp).tmp.height = 0 ∧
    (pass2 ops p1 inp).height_weight = 0 ∧
    (pass2 ops p1 inp).tmp.flags.has_height = false := by
  unfold pass2
  refine foldl_invariant (fun s => s.tmp.height = 0 ∧ s.height_weight = 0 ∧
    s.tmp.flags.has_height = false) _ inp (p2Init p1.tmp)
    (by simp [p2Init, h1, h3]) ?_
  intro s a ha hinv
  simp only [pass2_step]
  split_ifs with he
  · exact hinv
  · simp only [pass2_used_pres, pass2_height_skip _ _ _ _ _ (hg a ha he),
      pass2_direction_pres, pass2_speed_pres, pass2_geo_pres]
    exact hinv

theorem pass2_keeps_sat (ops : TrigOps) (p1 : P1State) (inp : List Location)
    (hg : ∀ l ∈ inp, eligible l → l.flags.has_sat_data = false)
    (h1 : p1.tmp.sats = 0) (h2 : p1.tmp.sats_used = 0)
    (h3 : p1.tmp.flags.has_sat_data = false) :
    (pass2 ops p1 inp).tmp.sats = 0 ∧
    (pass2 ops p1 inp).tmp.sats_used = 0 ∧
    (pass2 ops p1 inp).tmp.flags.has_sat_data = false := by
  unfold pass2
  refine foldl_invariant (fun s => s.tmp.sats = 0 ∧ s.tmp.sats_used = 0 ∧
    s.tmp.flags.has_sat_data = false) _ inp (p2Init p1.tmp)
    (by simp [p2Init, h1, h2, h3]) ?_
  intro s a ha hinv
  simp only [pass2_step]
  split_ifs with he
  · exact hinv
  · simp only [pass2_used_sat_pres _ _ _ (hg a ha he), pass2_height_pres,
      pass2_direction_pres, pass2_speed_pres, pass2_geo_pres]
    exact hinv


theorem post_geo_skip (ops : TrigOps) (p1 : P1State) (s : P2State)
    (tmp : Location) (hc : p1.geo_count = 0) :
    post_geo ops p1 s tmp = tmp := by
  unfold post_geo
  simp [hc]

theorem post_geo_pres (ops : TrigOps) (p1 : P1State) (s : P2State)
    (tmp : Location) :
    (post_geo ops p1 s tmp).speed = tmp.speed ∧
    (post_geo ops p1 s tmp).direction = tmp.direction ∧
    (post_geo ops p1 s tmp).height = tmp.height ∧
    (post_geo ops p1 s tmp).sats = tmp.sats ∧
    (post_geo ops p1 s tmp).sats_used = tmp.sats_used ∧
    (post_geo ops p1 s tmp).flags.has_speed = tmp.flags.has_speed ∧
    (post_geo ops p1 s tmp).flags.has_direction = tmp.flags.has_direction ∧
    (post_geo ops p1 s tmp).flags.has_height = tmp.flags.has_height ∧
    (post_geo ops p1 s tmp).flags.has_sat_data = tmp.flags.has_sat_data := by
  unfold post_geo
  split_ifs <;> (try simp) <;> (try split_ifs) <;> (try simp)

theorem post_speed_skip (s : P2State) (tmp : Location)
    (hw : s.speed_weight = 0) : post_speed s tmp = tmp := by
  unfold post_speed
  simp [hw]

theorem post_speed_pres (s : P2State) (tmp : Location) :
    (post_speed s tmp).geo = tmp.geo ∧
    (post_speed s tmp).radius = tmp.radius ∧
    (post_speed s tmp).direction = tmp.direction ∧
    (post_speed s tmp).height = tmp.height ∧
    (post_speed s tmp).sats = tmp.sats ∧
    (post_speed s tmp).sats_used = tmp.sats_used ∧
    (post_speed s tmp).flags.has_geo = tmp.flags.has_geo ∧
    (post_speed s tmp).flags.has_direction = tmp.flags.has_direction ∧
    (post_speed s tmp).flags.has_height = tmp.flags.has_height ∧
    (post_speed s tmp).flags.has_sat_data = tmp.flags.has_sat_data := by
  unfold post_speed
  split_ifs <;> simp

theorem post_direction_skip (ops : TrigOps) (p1 : P1State) (s : P2State)
    (tmp : Location) (hc : p1.direction_count = 0) :
    post_direction ops p1 s tmp = tmp := by
  unfold post_direction
  simp [hc]

theorem post_direction_pres (ops : TrigOps) (p1 : P1State) (s : P2State)
    (tmp : Location) :
    (post_direction ops p1 s tmp).geo = tmp.geo ∧
    (post_direction ops p1 s tmp).radius = tmp.radius ∧
    (post_direction ops p1 s tmp).speed = tmp.speed ∧
    (post_direction ops p1 s tmp).height = tmp.height ∧
    (post_direction ops p1 s tmp).sats = tmp.sats ∧
    (post_direction ops p1 s tmp).sats_used = tmp.sats_used ∧
    (post_direction ops p1 s tmp).flags.has_geo = tmp.flags.has_geo ∧
    (post_direction ops p1 s tmp).flags.has_speed = tmp.flags.has_speed ∧
    (post_direction ops p1 s tmp).flags.has_height = tmp.flags.has_height ∧
    (post_direction ops p1 s tmp).flags.has_sat_data
      = tmp.flags.has_sat_data := by
  unfold post_direction
  split_ifs <;> (try simp) <;> (try split_ifs) <;> (try simp)

theorem post_height_skip (s : P2State) (tmp : Location)
    (hw : s.height_weight = 0) : post_height s tmp = tmp := by
  unfold post_height
  simp [hw]

theorem post_height_pres (s : P2State) (tmp : Location) :
    (post_height s tmp).geo = tmp.geo ∧
    (post_height s tmp).radius = tmp.radius ∧
    (post_height s tmp).speed = tmp.speed ∧
    (post_height s tmp).direction = tmp.direction ∧
    (post_height s tmp).sats = tmp.sats ∧
    (post_height s tmp).sats_used = tmp.sats_used ∧
    (post_height s tmp).flags.has_geo = tmp.flags.has_geo ∧
    (post_height s tmp).flags.has_speed = tmp.flags.has_speed ∧
    (post_height s tmp).flags.has_direction = tmp.flags.has_direction ∧
    (post_height s tmp).flags.has_sat_data = tmp.flags.has_sat_data := by
  unfold post_height
  split_ifs <;> simp

theorem postProcess_geo_reset (ops : TrigOps) (p1 : P1State) (s : P2State)
    (hc : p1.geo_count = 0) (h1 : s.tmp.geo = (⟨0, 0⟩ : GeoPair))
    (h2 : s.tmp.radius = 0) (h3 : s.tmp.flags.has_geo = false) :
    (postProcess ops p1 s).geo = (⟨0, 0⟩ : GeoPair) ∧
    (postProcess ops p1 s).radius = 0 ∧
    (postProcess ops p1 s).flags.has_geo = false := by
  unfold postProcess
  simp only [post_geo_skip _ _ _ _ hc, post_height_pres, post_direction_pres,
    post_speed_pres, h1, h2, h3]
  exact ⟨trivial, trivial, trivial⟩

theorem postProcess_speed_reset (ops : TrigOps) (p1 : P1State) (s : P2State)
    (h1 : s.tmp.speed = 0) (h2 : s.speed_weight = 0)
    (h3 : s.tmp.flags.has_speed = false) :
    (postProcess ops p1 s).speed = 0 ∧
    (postProcess ops p1 s).flags.has_speed = false := by
  unfold postProcess
  simp only [post_height_pres, post_direction_pres, post_speed_skip _ _ h2,
    post_geo_pres, h1, h3]
  exact ⟨trivial, trivial⟩

theorem postProcess_direction_reset (ops : TrigOps) (p1 : P1State)
    (s : P2State) (hc : p1.direction_count = 0) (h1 : s.tmp.direction = 0)
    (h3 : s.tmp.flags.has_direction = false) :
    (postProcess ops p1 s).direction = 0 ∧
    (postProcess ops p1 s).flags.has_direction = false := by
  unfold postProcess
  simp only [post_height_pres, post_direction_skip _ _ _ _ hc,
    post_speed_pres, post_geo_pres, h1, h3]
  exact ⟨trivial, trivial⟩

theorem postProcess_height_reset (ops : TrigOps) (p1 : P1State) (s : P2State)
    (h1 : s.tmp.height = 0) (h2 : s.height_weight = 0)
    (h3 : s.tmp.flags.has_height = false) :
    (postProcess ops p1 s).height = 0 ∧
    (postProcess ops p1 s).flags.has_height = false := by
  unfold postProcess
  simp only [post_height_skip _ _ h2, post_direction_pres, post_speed_pres,
    post_geo_pres, h1, h3]
  exact ⟨trivial, trivial⟩

theorem postProcess_sat_pres (ops : TrigOps) (p1 : P1State) (s : P2State) :
    (postProcess ops p1 s).sats = s.tmp.sats ∧
    (postProcess ops p1 s).sats_used = s.tmp.sats_used ∧
    (postProcess ops p1 s).flags.has_sat_data
      = s.tmp.flags.has_sat_data := by
  unfold postProcess
  simp only [post_height_pres, post_direction_pres, post_speed_pres,
    post_geo_pres]
  exact ⟨trivial, trivial, trivial⟩

/-- Claim C3 as amended: an attribute group with no eligible contributor
this cycle is not left at its previous fused value; instead the output
receives the freshly zeroed temporary's value for that group (zero), and
the group's presence flag is cleared. -/
theorem C3_no_contributor_groups_reset (ops : TrigOps) (inp : List Location)
    (lout : Location) :
    ((∀ l ∈ inp, eligible l → l.flags.has_geo = false) →
      (location_update ops inp lout).1.geo = (⟨0, 0⟩ : GeoPair) ∧
      (location_update ops inp lout).1.radius = 0 ∧
      (location_update ops inp lout).1.flags.has_geo = false) ∧
    ((∀ l ∈ inp, eligible l → l.flags.has_speed = false) →
      (location_update ops inp lout).1.speed = 0 ∧
      (location_update ops inp lout).1.flags.has_speed = false) ∧
    ((∀ l ∈ inp, eligible l → l.flags.has_direction = false) →
      (location_update ops inp lout).1.direction = 0 ∧
      (location_update ops inp lout).1.flags.has_direction = false) ∧
    ((∀ l ∈ inp, eligible l → l.flags.has_height = false) →
      (location_update ops inp lout).1.height = 0 ∧
      (location_update ops inp lout).1.flags.has_height = false) ∧
    ((∀ l ∈ inp, eligible l → l.flags.has_sat_data = false) →
      (location_update ops inp lout).1.sats = 0 ∧
      (location_update ops inp lout).1.sats_used = 0 ∧
      (location_update ops inp lout).1.flags.has_sat_data = false) := by
  have hd0 := pass1_data_zero inp
  have hfl := hd0.2.2.2.2.2.2.2
  refine ⟨fun hg => ?_, fun hs => ?_, fun hb => ?_, fun hh => ?_,
    fun ht => ?_⟩
  · exact postProcess_geo_reset ops (pass1 inp) (pass2 ops (pass1 inp) inp)
      (pass1_geo_count_zero inp hg)
      (pass2_keeps_geo ops (pass1 inp) inp hg hd0.1 hd0.2.2.2.2.1
        (by rw [hfl]; rfl)).1
      (pass2_keeps_geo ops (pass1 inp) inp hg hd0.1 hd0.2.2.2.2.1
        (by rw [hfl]; rfl)).2.1
      (pass2_keeps_geo ops (pass1 inp) inp hg hd0.1 hd0.2.2.2.2.1
        (by rw [hfl]; rfl)).2.2
  · exact postProcess_speed_reset ops (pass1 inp) (pass2 ops (pass1 inp) inp)
      (pass2_keeps_speed ops (pass1 inp) inp hs hd0.2.1
        (by rw [hfl]; rfl)).1
      (pass2_keeps_speed ops (pass1 inp) inp hs hd0.2.1
        (by rw [hfl]; rfl)).2.1
      (pass2_keeps_speed ops (pass1 inp) inp hs hd0.2.1
        (by rw [hfl]; rfl)).2.2
  · exact postProcess_direction_reset ops (pass1 inp)
      (pass2 ops (pass1 inp) inp) (pass1_direction_count_zero inp hb)
      (pass2_keeps_direction ops (pass1 inp) inp hb hd0.2.2.1
        (by rw [hfl]; rfl)).1
      (pass2_keeps_direction ops (pass1 inp) inp hb hd0.2.2.1
        (by rw [hfl]; rfl)).2
  · exact postProcess_height_reset ops (pass1 inp)
      (pass2 ops (pass1 inp) inp)
      (pass2_keeps_height ops (pass1 inp) inp hh hd0.2.2.2.1
        (by rw [hfl]; rfl)).1
      (pass2_keeps_height ops (pass1 inp) inp hh hd0.2.2.2.1
        (by rw [hfl]; rfl)).2.1
      (pass2_keeps_height ops (pass1 inp) inp hh hd0.2.2.2.1
        (by rw [hfl]; rfl)).2.2
  · have hsat := pass2_keeps_sat ops (pass1 inp) inp ht hd0.2.2.2.2.2.1
      hd0.2.2.2.2.2.2.1 (by rw [hfl]; rfl)
    have hps := postProcess_sat_pres ops (pass1 inp)
      (pass2 ops (pass1 inp) inp)
    exact ⟨hps.1.trans hsat.1, hps.2.1.trans hsat.2.1,
      hps.2.2.trans hsat.2.2⟩

/-- The previous fused location used to refute claim C3: it carries a
position, speed, bearing, altitude and satellite data from an earlier
cycle. -/
def C3prev : Location :=
  { geo := ⟨1, 2⟩, speed := 50, direction := 90, height := 10, radius := 4,
    fix_type := 1, fix_time := ⟨100, 0⟩, fixiso8601 := 100, sats := 9,
    sats_used := 4, valid := .valid,
    flags := ⟨true, true, true, true, true, true⟩, preference := 0 }

/-- Counterexample to claim C3: with an empty raw set (no contributor
for any attribute group), the previous fused speed 50, position (1, 2)
and satellite count 9 are not left untouched — `location_update`
overwrites them with the zeroed temporary's values. -/
theorem C3_counterexample_not_sticky :
    (location_update trigZero [] C3prev).1.speed = 0 ∧
    (location_update trigZero [] C3prev).1.geo = (⟨0, 0⟩ : GeoPair) ∧
    (location_update trigZero [] C3prev).1.sats = 0 ∧
    C3prev.speed = 50 ∧ C3prev.geo = (⟨1, 2⟩ : GeoPair) ∧ C3prev.sats = 9 := by
  norm_num [location_update, fuse, pass1, pass2, postProcess, copyPhase,
    post_geo, post_speed, post_direction, post_height, p1Init, p2Init,
    C3prev, emptyLocation, LocFlags.none]

/-- Witness for the amended claim C3: on the empty raw set every group
has no contributor, and every group of the output is reset to zero with
its presence flag cleared. -/
theorem C3_no_contributor_groups_reset_witness :
    (location_update trigZero [] emptyLocation).1.speed = 0 ∧
    (location_update trigZero [] emptyLocation).1.flags.has_speed = false :=
  (C3_no_contributor_groups_reset trigZero [] emptyLocation).2.1
    (by simp)

theorem mergeMeta_pres (tmp l : Location) :
    (mergeMeta tmp l).geo = tmp.geo ∧ (mergeMeta tmp l).speed = tmp.speed ∧
    (mergeMeta tmp l).direction = tmp.direction ∧
    (mergeMeta tmp l).height = tmp.height ∧
    (mergeMeta tmp l).radius = tmp.radius ∧
    (mergeMeta tmp l).sats = tmp.sats ∧
    (mergeMeta tmp l).sats_used = tmp.sats_used ∧
    (mergeMeta tmp l).flags = tmp.flags := by
  simp [mergeMeta]

/-- The presence bitset of a raw location supplying only a bearing. -/
def bearingOnlyFlags : LocFlags :=
  ⟨false, false, true, false, false, false⟩

/-- Claim C7: fusing exactly two contributing bearings that are 180
degrees apart with equal weight (equal accuracy radius) skips the
bearing update: the fused bearing field keeps its zeroed default and its
presence flag stays clear, rather than being set from the aggregate
(whose Cartesian components cancel to zero so the magnitude test fails);
no division by the zero magnitude is ever performed. The cosine/sine
cancellation property of the external trig helpers on antipodal angles,
and the vanishing of the square root at zero, are stated as
hypotheses. -/
theorem C7_antipodal_bearings_skipped (ops : TrigOps) (l1 l2 lout : Location)
    (hfl1 : l1.flags = bearingOnlyFlags) (hfl2 : l2.flags = bearingOnlyFlags)
    (hgt : -INT_MAX < get_effective_preference_level l1.preference l1.valid)
    (heq : get_effective_preference_level l2.preference l2.valid =
      get_effective_preference_level l1.preference l1.valid)
    (hd : l2.direction = l1.direction + 180)
    (hr : l2.radius = l1.radius)
    (hcos : ops.cos (l1.direction + 180) = -(ops.cos l1.direction))
    (hsin : ops.sin (l1.direction + 180) = -(ops.sin l1.direction))
    (hsqrt : ops.sqrt 0 = 0) :
    (location_update ops [l1, l2] lout).1.direction = 0 ∧
    (location_update ops [l1, l2] lout).1.flags.has_direction = false := by
  have hne := hgt.ne'
  have hdx : l1.radius⁻¹ * ops.cos l1.direction +
      l2.radius⁻¹ * ops.cos l2.direction = 0 := by
    rw [hd, hr, hcos]; ring
  have hdy : l1.radius⁻¹ * ops.sin l1.direction +
      l2.radius⁻¹ * ops.sin l2.direction = 0 := by
    rw [hd, hr, hsin]; ring
  have hp1 : pass1 [l1, l2] =
      { tmp := emptyLocation, geo_eplev := -INT_MAX, speed_eplev := -INT_MAX,
        direction_eplev :=
          get_effective_preference_level l1.preference l1.valid,
        height_eplev := -INT_MAX, geo_count := 0, direction_count := 2 } := by
    simp [pass1, pass1_step, pass1_geo, pass1_speed, pass1_direction,
      pass1_height, p1Init, hfl1, hfl2, heq, hne, hgt, bearingOnlyFlags]
  have hp2 : pass2 ops (pass1 [l1, l2]) [l1, l2] =
      { tmp := mergeMeta (mergeMeta emptyLocation l1) l2,
        cart := ⟨0, 0, 0⟩, geo_k := 0, geo_p := 0, speed_weight := 0,
        height_weight := 0, dirx := 0, diry := 0 } := by
    rw [hp1]
    simp [pass2, pass2_step, pass2_geo, pass2_speed, pass2_direction,
      pass2_height, pass2_used, p2Init, hfl1, hfl2, heq, hne,
      bearingOnlyFlags, hdx, hdy]
  have hfu : fuse ops [l1, l2] =
      postProcess ops (pass1 [l1, l2]) (pass2 ops (pass1 [l1, l2]) [l1, l2]) :=
    rfl
  have hcon : (location_update ops [l1, l2] lout).1.direction =
      (fuse ops [l1, l2]).direction ∧
      (location_update ops [l1, l2] lout).1.flags.has_direction =
      (fuse ops [l1, l2]).flags.has_direction := ⟨rfl, rfl⟩
  rw [hcon.1, hcon.2, hfu, hp2, hp1]
  simp [postProcess, post_geo, post_speed, post_direction, post_height,
    hsqrt, mergeMeta_pres, emptyLocation, LocFlags.none]

/-- First concrete bearing-only raw location for the C7 witness. -/
def C7l1 : Location :=
  { emptyLocation with direction := 30, radius := 1,
                       flags := bearingOnlyFlags, valid := .valid }

/-- Second concrete bearing-only raw location for the C7 witness,
antipodal to the first with the same accuracy radius. -/
def C7l2 : Location :=
  { emptyLocation with direction := 210, radius := 1,
                       flags := bearingOnlyFlags, valid := .valid }

/-- Witness for C7 at two concrete antipodal bearings (30 and 210
degrees, equal radius 1). -/
theorem C7_antipodal_bearings_skipped_witness :
    (location_update trigZero [C7l1, C7l2] emptyLocation).1.direction = 0 ∧
    (location_update trigZero [C7l1, C7l2]
      emptyLocation).1.flags.has_direction = false :=
  C7_antipodal_bearings_skipped trigZero C7l1 C7l2 emptyLocation rfl rfl
    (by decide) rfl (by norm_num [C7l1, C7l2, emptyLocation]) rfl
    (by simp [trigZero]) (by simp [trigZero]) rfl

/-- C `struct coord`: a projected map coordinate. -/
structure Coord where
  x : ℤ
  y : ℤ
deriving DecidableEq

/-- C conversion of a `double` to `int`: truncation toward zero. -/
def cTrunc (q : ℚ) : ℤ := q.num.tdiv (q.den : ℤ)

/-- C `int` division: truncation toward zero. -/
def cIntDiv (a b : ℤ) : ℤ := a.tdiv b

/-- The route-map item types distinguished by `location_extrapolate`:
`type_route_start`, `type_street_route`, and everything else. -/
inductive ItemKind
  | route_start
  | street_route
  | other
deriving DecidableEq

/-- The street item underlying a route item, identified by its item
type (used as the road-profile key). -/
structure StreetItem where
  stype : ℕ
deriving DecidableEq

/-- Modelled from the spec: the road profile for a street-item type,
carrying the profile weight (`route_weight`) used as the default segment
speed. -/
structure Roadprofile where
  route_weight : ℤ
deriving DecidableEq

/-- Modelled from the spec: the three maxspeed-handling policies of the
vehicle profile — ignore the network speed, enforce the posted maximum,
or take the lesser of the two (restrict). -/
inductive MaxspeedHandling
  | maxspeed_enforce
  | maxspeed_restrict
  | maxspeed_ignore
deriving DecidableEq

/-- Modelled from the spec: the vehicle profile as consumed by
`location_extrapolate` — a maxspeed-handling policy and the road-profile
lookup `vehicleprofile_get_roadprofile` by street-item type. -/
structure VehicleProfile where
  maxspeed_handling : MaxspeedHandling
  roadprofile : ℕ → Option Roadprofile

/-- A route-map item as iterated by `location_extrapolate`: its type,
its coordinate sequence (consumed one at a time by `item_coord_get`),
its optional underlying street item and its optional posted maxspeed
attribute. -/
structure RouteItem where
  itype : ItemKind
  coords : List Coord
  street_item : Option StreetItem
  maxspeed : Option ℤ
deriving DecidableEq

/-- `OFFROAD_SPEED` (location.c line 57): the presumed speed for
off-road segments. -/
def OFFROAD_SPEED : ℚ := 5

/-- `DEMO_ACCURACY` (location.c line 49): the presumed accuracy for the
demo vehicle. -/
def DEMO_ACCURACY : ℤ := 3

/-- Modelled from the spec: `transform_distance` (transform.c, not under
`src/`), the projected distance between two coordinates, a pure external
geodesy helper returning an `int`; modelled as the integer part of the
Euclidean distance. -/
def transform_distance (a b : Coord) : ℤ :=
  (Nat.sqrt (((b.x - a.x) * (b.x - a.x) + (b.y - a.y) * (b.y - a.y)).toNat) : ℤ)

/-- Modelled from the spec: `transform_to_geo` (transform.c, not under
`src/`), the projection from map coordinates to geodetic coordinates, a
pure external geodesy helper; no claim depends on its concrete values,
so it is modelled as an unspecified injective pure map. -/
def transform_to_geo (c : Coord) : GeoPair := ⟨(c.y : ℚ), (c.x : ℚ)⟩

/-- Modelled from the spec: `transform_get_angle_delta` (transform.c,
not under `src/`), the bearing between two points, a pure external
geodesy helper; no claim depends on its concrete values. -/
def transform_get_angle_delta (a b : Coord) : ℚ := (b.x - a.x) + (b.y - a.y)

/-- The posted maxspeed of a route item as read by
`location_extrapolate` (location.c lines 863-866): the attribute value
when present, else 0. -/
def item_speed_of (it : RouteItem) : ℚ :=
  match it.maxspeed with
  | some n => (n : ℚ)
  | none => 0

/-- The road-profile speed of a route item as read by
`location_extrapolate` (location.c lines 848-862): the profile weight of
the underlying street item's type, looked up only when the
maxspeed-handling policy is not `maxspeed_ignore`; 0 when missing. -/
def vehicle_speed_of (vp : VehicleProfile) (it : RouteItem) : ℚ :=
  if vp.maxspeed_handling ≠ .maxspeed_ignore then
    match it.street_item with
    | some sitem =>
      match vp.roadprofile sitem.stype with
      | some rp => (rp.route_weight : ℚ)
      | none => 0
    | none => 0
  else 0

/-- The per-segment simulated-speed resolution of `location_extrapolate`
(location.c lines 846-877): posted maxspeed absent or zero yields the
profile speed; otherwise `maxspeed_enforce` yields the posted maximum
and any other policy yields the lesser of the two; a zero result falls
back to `OFFROAD_SPEED`. -/
def resolve_sim_speed (vp : VehicleProfile) (it : RouteItem) : ℚ :=
  let vehicle_speed := vehicle_speed_of vp it
  let item_speed := item_speed_of it
  let sim :=
    if item_speed = 0 then vehicle_speed
    else if vp.maxspeed_handling = .maxspeed_enforce then item_speed
    else if vehicle_speed < item_speed then vehicle_speed else item_speed
  if sim = 0 then OFFROAD_SPEED else sim

/-- The data written to the output location when the simulation loop
stops: the stop coordinate, the bearing (absent at the zero-speed final
stop) and the speed. -/
structure StopResult where
  ci : Coord
  bearing : Option ℚ
  speed : ℚ

/-- The time needed to follow a segment at the given speed, in tenths of
seconds (location.c lines 880-881): `stime = slen * 36 / sim_speed`,
with the C double-to-int truncation. -/
def segStime (speed : ℚ) (pos c : Coord) : ℤ :=
  cTrunc (((transform_distance pos c * 36 : ℤ) : ℚ) / speed)

/-- The simulation loop of `location_extrapolate` (location.c lines
831-926): walk the remaining coordinates of the current item and then
the following items, consuming the time budget segment by segment;
interpolate linearly within the segment on which the budget expires when
a further coordinate or item exists, otherwise park at the segment start
with speed 0 («destination reached»); return `none` when the items run
out before the budget does (in which case the caller writes nothing). -/
def simLoop (vp : VehicleProfile) (aspeed : ℚ) (pos : Coord) (timespan : ℤ)
    (cur : RouteItem) (curCoords : List Coord) (rest : List RouteItem) :
    Option StopResult :=
  match curCoords with
  | [] =>
    match rest with
    | [] => none
    | it :: its => simLoop vp aspeed pos timespan it it.coords its
  | c :: cs =>
    let sim_speed := if aspeed = 0 then resolve_sim_speed vp cur else aspeed
    let stime := segStime sim_speed pos c
    if stime < timespan then
      simLoop vp aspeed c (timespan - stime) cur cs rest
    else
      if cs ≠ [] ∨ rest ≠ [] then
        some { ci := ⟨pos.x + cIntDiv ((c.x - pos.x) * timespan) stime,
                     pos.y + cIntDiv ((c.y - pos.y) * timespan) stime⟩,
               bearing := some (transform_get_angle_delta pos c),
               speed := sim_speed }
      else
        some { ci := pos, bearing := none, speed := 0 }
termination_by (rest.length, curCoords.length)

/-- The writes performed on the output location when the simulation loop
stops (location.c lines 897-914): bearing and speed (or speed 0),
position, fixed accuracy, new fix time, validity `valid`. -/
def applyStop (sr : StopResult) (lout : Location) (tv_new : Timeval) :
    Location :=
  let l1 :=
    match sr.bearing with
    | some b => location_set_bearing lout b
    | none => lout
  let l2 := location_set_speed l1 sr.speed
  let l3 := location_set_position l2 (transform_to_geo sr.ci)
  let l4 := location_set_position_accuracy l3 DEMO_ACCURACY
  let l5 := location_set_fix_time l4 tv_new
  location_set_validity l5 .valid

/-- The discard loop of `location_extrapolate` (location.c lines
813-816): skip items until the first `type_street_route` item. -/
def scanStreet : RouteItem → List RouteItem →
    Option (RouteItem × List RouteItem)
  | it, rest =>
    if it.itype = .street_route then some (it, rest)
    else
      match rest with
      | [] => none
      | n :: ns => scanStreet n ns
termination_by _ rest => rest.length

/-- Locating the first street-route item of the route map (location.c
lines 797-816): the first item has one coordinate consumed by the debug
block, a leading `type_route_start` item is discarded, and the scan then
skips to the first `type_street_route` item. -/
def extrapolateScan (items : List RouteItem) :
    Option (RouteItem × List RouteItem) :=
  match items with
  | [] => none
  | it0 :: rest0 =>
    let it0d : RouteItem := { it0 with coords := it0.coords.drop 1 }
    if it0d.itype = .route_start then
      match rest0 with
      | [] => none
      | n :: ns => scanStreet n ns
    else scanStreet it0d rest0

/-- The elapsed-time computation of `location_extrapolate` (location.c
line 784): difference in tenths of seconds, rounding microseconds. -/
def timespanOf (tv_old tv_new : Timeval) : ℤ :=
  (tv_new.tv_sec - tv_old.tv_sec) * 10 +
    cIntDiv (tv_new.tv_usec - tv_old.tv_usec + 50000) 100000

/-- `location_extrapolate` (location.c lines 717-931): calculates a new
location by simulating travel along the route. The route map, vehicle
profile and current time are passed explicitly (in the C code they come
from the navit object and `gettimeofday`; `route = none` covers every
way of ending up without a map rect). Returns the C return value
together with the resulting output location. -/
def location_extrapolate (lin lout : Location)
    (route : Option (List RouteItem)) (vp : VehicleProfile) (aspeed : ℚ)
    (tv_new : Timeval) : ℤ × Location :=
  if lin.fix_time.tv_sec = 0 ∧ lin.fix_time.tv_usec = 0 then (0, lout)
  else
    let timespan := timespanOf lin.fix_time tv_new
    if timespan ≤ 0 then (0, lout)
    else
      match route with
      | none => (0, lout)
      | some [] => (0, lout)
      | some items =>
        match extrapolateScan items with
        | none => (1, lout)
        | some (it, rest) =>
          match it.coords with
          | [] => (1, lout)
          | pos :: cs =>
            match simLoop vp aspeed pos timespan it cs rest with
            | none => (1, lout)
            | some sr => (1, applyStop sr lout tv_new)

/-- The total time, in tenths of seconds, needed to walk the remaining
coordinates of the current item and all following items at the speeds
the simulation loop would resolve; mirrors the recursion of
`simLoop`. -/
def routeTimeAux (vp : VehicleProfile) (aspeed : ℚ) (pos : Coord)
    (cur : RouteItem) : List Coord → List RouteItem → ℤ
  | [], [] => 0
  | [], it :: its => routeTimeAux vp aspeed pos it it.coords its
  | c :: cs, rest =>
    let sp := if aspeed = 0 then resolve_sim_speed vp cur else aspeed
    segStime sp pos c + routeTimeAux vp aspeed c cur cs rest
termination_by cs rest => (rest.length, cs.length)

theorem cTrunc_nonneg (q : ℚ) (h : 0 ≤ q) : 0 ≤ cTrunc q := by
  unfold cTrunc
  exact Int.tdiv_nonneg (Rat.num_nonneg.mpr h) (Int.natCast_nonneg _)

theorem transform_distance_nonneg (a b : Coord) :
    0 ≤ transform_distance a b := by
  unfold transform_distance
  exact Int.natCast_nonneg _

theorem segStime_nonneg (sp : ℚ) (pos c : Coord) (h : 0 < sp) :
    0 ≤ segStime sp pos c := by
  unfold segStime
  refine cTrunc_nonneg _ (div_nonneg ?_ h.le)
  have := transform_distance_nonneg pos c
  positivity

theorem routeTimeAux_nonneg (vp : VehicleProfile) (aspeed : ℚ)
    (h : 0 < aspeed) : ∀ (cs : List Coord) (rest : List RouteItem)
    (pos : Coord) (cur : RouteItem),
    0 ≤ routeTimeAux vp aspeed pos cur cs rest := by
  intro cs rest pos cur
  induction pos, cur, cs, rest using routeTimeAux.induct vp aspeed with
  | case1 pos cur => rw [routeTimeAux]
  | case2 pos cur it its ih => rw [routeTimeAux]; exact ih
  | case3 pos cur c cs rest ih =>
      rw [routeTimeAux]
      have h1 : 0 ≤ segStime (if aspeed = 0 then resolve_sim_speed vp cur
          else aspeed) pos c := by
        rw [if_neg h.ne']
        exact segStime_nonneg _ _ _ h
      omega

/-- When the remaining route takes strictly less time than the remaining
budget, the simulation loop consumes the whole route and exits without a
stop result. -/
theorem simLoop_overrun (vp : VehicleProfile) (aspeed : ℚ) (h : 0 < aspeed) :
    ∀ (rest : List RouteItem) (cs : List Coord) (pos : Coord) (timespan : ℤ)
      (cur : RouteItem),
      routeTimeAux vp aspeed pos cur cs rest < timespan →
      simLoop vp aspeed pos timespan cur cs rest = none := by
  intro rest
  induction rest with
  | nil =>
      intro cs
      induction cs with
      | nil => intro pos timespan cur _; simp [simLoop]
      | cons c cs ih =>
          intro pos timespan cur hb
          simp only [routeTimeAux, if_neg h.ne'] at hb
          simp only [simLoop, if_neg h.ne']
          have htail := routeTimeAux_nonneg vp aspeed h cs [] c cur
          have hst := segStime_nonneg aspeed pos c h
          have hlt : segStime aspeed pos c < timespan := by omega
          rw [if_pos hlt]
          exact ih c (timespan - segStime aspeed pos c) cur (by omega)
  | cons it its ihrest =>
      intro cs
      induction cs with
      | nil =>
          intro pos timespan cur hb
          simp only [routeTimeAux] at hb
          simp only [simLoop]
          exact ihrest it.coords pos timespan it hb
      | cons c cs ih =>
          intro pos timespan cur hb
          simp only [routeTimeAux, if_neg h.ne'] at hb
          simp only [simLoop, if_neg h.ne']
          have htail := routeTimeAux_nonneg vp aspeed h cs (it :: its) c cur
          have hst := segStime_nonneg aspeed pos c h
          have hlt : segStime aspeed pos c < timespan := by omega
          rw [if_pos hlt]
          exact ih c (timespan - segStime aspeed pos c) cur (by omega)

/-- Claim C5 as amended: when `location_extrapolate` (with a positive
fixed speed) consumes the whole route before exhausting the elapsed-time
budget — the total traversal time of the walked route is strictly below
the budget — it reports success (returns 1) but leaves the output
location completely unchanged; it does not set the position to the
route's final point and does not set the speed to 0. -/
theorem C5_route_overrun_output_unchanged (lin lout : Location)
    (items : List RouteItem) (vp : VehicleProfile) (aspeed : ℚ)
    (tv_new : Timeval) (it : RouteItem) (rest : List RouteItem) (pos : Coord)
    (cs : List Coord)
    (hfix : ¬(lin.fix_time.tv_sec = 0 ∧ lin.fix_time.tv_usec = 0))
    (hts : 0 < timespanOf lin.fix_time tv_new)
    (hsp : 0 < aspeed)
    (hscan : extrapolateScan items = some (it, rest))
    (hcoords : it.coords = pos :: cs)
    (hbudget : routeTimeAux vp aspeed pos it cs rest <
      timespanOf lin.fix_time tv_new) :
    location_extrapolate lin lout (some items) vp aspeed tv_new =
      (1, lout) := by
  have hloop := simLoop_overrun vp aspeed hsp rest cs pos
    (timespanOf lin.fix_time tv_new) it hbudget
  unfold location_extrapolate
  rw [if_neg hfix]
  have hitems : items ≠ [] := by
    intro he
    rw [he] at hscan
    simp [extrapolateScan] at hscan
  match items, hscan with
  | i0 :: is0, hscan =>
    simp only [if_neg (not_le.mpr hts), hscan, hcoords, hloop]

/-- The previous location for the C5 scenario: a fix 100 s after the
epoch. -/
def C5lin : Location :=
  { emptyLocation with fix_time := ⟨100, 0⟩, fixiso8601 := 100 }

/-- The previous fused output for the C5 scenario, with a nonzero
speed so that «speed set to 0» is observable. -/
def C5out : Location := { emptyLocation with speed := 7 }

/-- A vehicle profile for the C5 scenario (irrelevant to the fixed-speed
walk). -/
def C5vp : VehicleProfile := ⟨.maxspeed_enforce, fun _ => Option.none⟩

/-- The single street-route item of the C5 scenario: one segment from
(0,0) to (3,4), length 5. -/
def C5street : RouteItem := ⟨.street_route, [⟨0, 0⟩, ⟨3, 4⟩], .none, .none⟩

/-- The C5 route: a route-start marker followed by the street item. -/
def C5route : List RouteItem := [⟨.route_start, [⟨0, 0⟩], .none, .none⟩, C5street]

theorem C5_transform_distance_eval : transform_distance ⟨0, 0⟩ ⟨3, 4⟩ = 5 := by
  unfold transform_distance
  norm_num
  rw [show Int.toNat 25 = 25 from rfl, show (25 : ℕ) = 5 ^ 2 by norm_num,
    Nat.sqrt_eq']
  norm_num

/-- Counterexample to claim C5: with a 10-decisecond budget, a fixed
speed of 36 km/h and a single 5-unit segment (crossing time 5
deciseconds), the loop consumes the whole route before exhausting the
budget; `location_extrapolate` then returns 1 but leaves the output
location untouched — its speed stays 7 (not 0) and no position is set
(the claim asserts the output position becomes the route's final point
and the speed becomes 0). -/
theorem C5_counterexample_output_untouched :
    location_extrapolate C5lin C5out (some C5route) C5vp 36 ⟨101, 0⟩ =
      (1, C5out) ∧
    C5out.speed = 7 ∧ C5out.flags.has_geo = false := by
  refine ⟨?_, rfl, rfl⟩
  have hseg : segStime 36 ⟨0, 0⟩ ⟨3, 4⟩ = 5 := by
    unfold segStime
    rw [C5_transform_distance_eval]
    norm_num [cTrunc]
  have ht0 : Int.tdiv 50000 100000 = 0 := by decide
  norm_num [location_extrapolate, extrapolateScan, scanStreet, simLoop,
    timespanOf, cIntDiv, hseg, ht0, C5lin, C5out, C5vp, C5route, C5street,
    emptyLocation]

/-- Witness for the amended claim C5 at the same concrete scenario. -/
theorem C5_route_overrun_output_unchanged_witness :
    location_extrapolate C5lin C5out (some C5route) C5vp 36 ⟨101, 0⟩ =
      (1, C5out) :=
  C5_route_overrun_output_unchanged C5lin C5out C5route C5vp 36 ⟨101, 0⟩
    C5street [] ⟨0, 0⟩ [⟨3, 4⟩]
    (by norm_num [C5lin, emptyLocation])
    (by
      have ht0 : Int.tdiv 50000 100000 = 0 := by decide
      norm_num [timespanOf, C5lin, emptyLocation, cIntDiv, ht0])
    (by norm_num)
    (by norm_num [extrapolateScan, scanStreet, C5route, C5street])
    rfl
    (by
      have ht0 : Int.tdiv 50000 100000 = 0 := by decide
      have hseg : segStime 36 ⟨0, 0⟩ ⟨3, 4⟩ = 5 := by
        unfold segStime
        rw [C5_transform_distance_eval]
        norm_num [cTrunc]
      norm_num [routeTimeAux, hseg, timespanOf, C5lin, emptyLocation,
        cIntDiv, ht0])

/-- The previous location for the C8 failing input: a valid fix time
(not the zero sentinel). -/
def C8lin : Location :=
  { emptyLocation with fix_time := ⟨100, 0⟩, fixiso8601 := 100 }

/-- The previous fused output for the C8 failing input. -/
def C8out : Location := { emptyLocation with speed := 9 }

/-- A vehicle profile for the C8 failing input. -/
def C8vp : VehicleProfile := ⟨.maxspeed_enforce, fun _ => Option.none⟩

/-- The C8 failing route: the map rect yields a single route-start item
and no street-route geometry at all. -/
def C8route : List RouteItem := [⟨.route_start, [⟨0, 0⟩], .none, .none⟩]

/-- Claim C8, evaluated at the failing input: with a usable fix time, a
positive elapsed time and a route that offers no street-route item,
`location_extrapolate` leaves the output location unchanged but returns
1 (success), while the claim — and the function's own documented return
contract («true if a new location was calculated») — demand failure
(0). The zero-fix-time precondition of the claim does hold: it is
checked first and also returns 0 with the output unchanged. -/
theorem C8_no_street_geometry_returns_success :
    location_extrapolate C8lin C8out (some C8route) C8vp 36 ⟨110, 0⟩ =
      (1, C8out) ∧
    location_extrapolate { C8lin with fix_time := ⟨0, 0⟩ } C8out
      (some C8route) C8vp 36 ⟨110, 0⟩ = (0, C8out) := by
  have ht0 : Int.tdiv 50000 100000 = 0 := by decide
  constructor
  · norm_num [location_extrapolate, extrapolateScan, scanStreet, timespanOf,
      cIntDiv, ht0, C8lin, C8out, C8route, emptyLocation]
  · norm_num [location_extrapolate, C8lin, emptyLocation]

/-- A vehicle profile with the `maxspeed_ignore` policy whose road
profile assigns weight 50 to every street-item type. -/
def C6vpIgnore : VehicleProfile :=
  ⟨.maxspeed_ignore, fun _ => some ⟨50⟩⟩

/-- A street-route segment whose street item has road-profile weight 50
and whose posted maxspeed is 30. -/
def C6item : RouteItem := ⟨.street_route, [], some ⟨1⟩, some 30⟩

/-- Counterexample to claim C6: under the `maxspeed_ignore` policy
(«ignore the posted maximum»), the claim implies the resolved segment
speed is the road-profile weight 50; the code never consults the road
profile when the policy is `maxspeed_ignore` (the guard at location.c
line 849 requires the policy to differ from `maxspeed_ignore`), so the
simulated speed degenerates to the off-road fallback 5, not 50. -/
theorem C6_counterexample_ignore_policy :
    C6vpIgnore.maxspeed_handling = .maxspeed_ignore ∧
    C6vpIgnore.roadprofile 1 = some ⟨50⟩ ∧
    resolve_sim_speed C6vpIgnore C6item = OFFROAD_SPEED ∧
    resolve_sim_speed C6vpIgnore C6item ≠ 50 := by
  have h1 : resolve_sim_speed C6vpIgnore C6item = OFFROAD_SPEED := by
    unfold resolve_sim_speed vehicle_speed_of item_speed_of C6vpIgnore C6item
    norm_num
    intro h
    exact absurd h (by decide)
  refine ⟨rfl, rfl, h1, ?_⟩
  rw [h1]
  norm_num [OFFROAD_SPEED]

/-- Claim C6 as amended: the resolved segment speed of
`location_extrapolate` (with no fixed speed) is always nonzero; with a
zero or absent posted maxspeed it is the road-profile weight, falling
back to the off-road constant 5 when that is zero; with a nonzero
posted maxspeed it is the posted value under `maxspeed_enforce` and the
lesser of weight and posted value under `maxspeed_restrict` (again with
the 5 km/h fallback when that is zero); and under `maxspeed_ignore` the
road-profile weight is never consulted, so the resolved speed is always
the off-road constant 5 (for nonnegative posted values). -/
theorem C6_resolve_sim_speed_policy (vp : VehicleProfile) (it : RouteItem) :
    (resolve_sim_speed vp it ≠ 0) ∧
    (item_speed_of it = 0 →
      resolve_sim_speed vp it =
        (if vehicle_speed_of vp it = 0 then OFFROAD_SPEED
         else vehicle_speed_of vp it)) ∧
    (vp.maxspeed_handling = .maxspeed_enforce → item_speed_of it ≠ 0 →
      resolve_sim_speed vp it = item_speed_of it) ∧
    (vp.maxspeed_handling = .maxspeed_restrict → item_speed_of it ≠ 0 →
      resolve_sim_speed vp it =
        (if (if vehicle_speed_of vp it < item_speed_of it then
              vehicle_speed_of vp it else item_speed_of it) = 0 then
          OFFROAD_SPEED
         else if vehicle_speed_of vp it < item_speed_of it then
          vehicle_speed_of vp it else item_speed_of it)) ∧
    (vp.maxspeed_handling = .maxspeed_ignore → 0 ≤ item_speed_of it →
      resolve_sim_speed vp it = OFFROAD_SPEED) := by
  have hnz : ∀ x : ℚ, (if x = 0 then OFFROAD_SPEED else x) ≠ 0 := by
    intro x
    split_ifs with hx
    · norm_num [OFFROAD_SPEED]
    · exact hx
  refine ⟨?_, ?_, ?_, ?_, ?_⟩
  · unfold resolve_sim_speed
    exact hnz _
  · intro hz
    unfold resolve_sim_speed
    simp [hz]
  · intro hp hz
    unfold resolve_sim_speed
    simp [hz, hp]
  · intro hp hz
    unfold resolve_sim_speed
    rw [hp]
    simp [hz]
  · intro hp hz
    have hv : vehicle_speed_of vp it = 0 := by
      unfold vehicle_speed_of
      rw [hp]
      simp
    unfold resolve_sim_speed
    rw [hp, hv]
    rcases eq_or_lt_of_le hz with hz0 | hpos
    · simp [← hz0]
    · simp [hpos.ne', hpos]

/-- A vehicle profile with the `maxspeed_enforce` policy and road-
profile weight 50 for every street-item type, used as the C6 witness. -/
def C6vpEnforce : VehicleProfile :=
  ⟨.maxspeed_enforce, fun _ => some ⟨50⟩⟩

/-- Witness for the amended claim C6: under `maxspeed_enforce`, the
posted maxspeed 30 of the concrete segment is enforced. -/
theorem C6_resolve_sim_speed_policy_witness :
    resolve_sim_speed C6vpEnforce C6item = item_speed_of C6item :=
  (C6_resolve_sim_speed_policy C6vpEnforce C6item).2.2.1 rfl
    (by norm_num [item_speed_of, C6item])
